import Mathlib

/-!
Verification development for the `api-patentes-chile` repository.

The repository is a set of JavaScript scrapers and HTTP handlers that resolve a
Chilean license plate into a structured vehicle record.  The definitions below
are a shallow embedding of the pure, data-transforming parts of that code:

* the JavaScript string primitives the code relies on (`toLowerCase`,
  `toUpperCase`, `trim`, `includes`, `parseInt`, `replace`),
* a small backtracking regular-expression engine covering exactly the regex
  features used by the source (literals, character classes, greedy and lazy
  `*`/`+`, bounded repetition, capturing and non-capturing groups, alternation,
  lookahead, `$`, the `i` flag, and global `exec` scanning),
* the HTML parsers `parseMultasFromHtml` (cloudflare-worker.js),
  `parseResultadosHtml` (cloudflare-worker-vehiculo.js / `part_000`),
  `extractVehicleData` and the in-page `getValue` extraction
  (cloudflare-worker-vehiculo-browser.js / `part_002`),
* the plate handling of `consultarVehiculo` (playwright-scraper.js),
  `consultarPropietario` (volanteomaleta-scraper.js) and the request handler of
  `api-server.js` (`part_003`), with the browser/network effects abstracted as
  explicit input parameters.
-/

/-! ## JavaScript string primitives -/

/-- Whitespace per JavaScript's `\s` class and `String.prototype.trim`
(ASCII whitespace plus NBSP and the BOM; the rarer Unicode space code points
do not occur in any string this development evaluates). -/
def jsSpace (c : Char) : Bool :=
  c.toNat = 9 ∨ c.toNat = 10 ∨ c.toNat = 11 ∨ c.toNat = 12 ∨ c.toNat = 13 ∨
  c.toNat = 32 ∨ c.toNat = 160 ∨ c.toNat = 65279

/-- Lowercasing as performed by `String.prototype.toLowerCase` on the
characters occurring in this repository (ASCII letters plus the Latin-1
uppercase range, which covers Á É Í Ó Ú Ñ Ü). -/
def jsLowerC (c : Char) : Char :=
  if 65 ≤ c.toNat ∧ c.toNat ≤ 90 then Char.ofNat (c.toNat + 32)
  else if 192 ≤ c.toNat ∧ c.toNat ≤ 222 ∧ c.toNat ≠ 215 then Char.ofNat (c.toNat + 32)
  else c

/-- Uppercasing as performed by `String.prototype.toUpperCase` on the
characters occurring in this repository. -/
def jsUpperC (c : Char) : Char :=
  if 97 ≤ c.toNat ∧ c.toNat ≤ 122 then Char.ofNat (c.toNat - 32)
  else if 224 ≤ c.toNat ∧ c.toNat ≤ 254 ∧ c.toNat ≠ 247 then Char.ofNat (c.toNat - 32)
  else c

def lowerL (s : List Char) : List Char := s.map jsLowerC

def jsLowerS (s : String) : String := String.mk (lowerL s.toList)

def jsUpperS (s : String) : String := String.mk (s.toList.map jsUpperC)

/-- JavaScript `String.prototype.trim`. -/
def jsTrimL (s : List Char) : List Char :=
  ((s.dropWhile jsSpace).reverse.dropWhile jsSpace).reverse

def jsTrim (s : String) : String := String.mk (jsTrimL s.toList)

/-- Exact (case-sensitive) test that `pre` is an initial run of `s`. -/
def frontIs : List Char → List Char → Bool
  | [], _ => true
  | _ :: _, [] => false
  | c :: cs, d :: ds => c = d && frontIs cs ds

/-- JavaScript `String.prototype.includes` (case-sensitive substring test). -/
def hasSub : List Char → List Char → Bool
  | s, needle =>
    if frontIs needle s then true
    else match s with
      | [] => false
      | _ :: rest => hasSub rest needle

/-- String-level `includes`. -/
def jsIncludes (s needle : String) : Bool := hasSub s.toList needle.toList

def isDigitC (c : Char) : Bool := 48 ≤ c.toNat ∧ c.toNat ≤ 57

def isHexC (c : Char) : Bool :=
  isDigitC c ∨ (97 ≤ (jsLowerC c).toNat ∧ (jsLowerC c).toNat ≤ 102)

def digitsToNat (ds : List Char) : Nat :=
  ds.foldl (fun a c => a * 10 + (c.toNat - 48)) 0

def hexToNat (ds : List Char) : Nat :=
  ds.foldl (fun a c =>
    a * 16 + (if isDigitC c then c.toNat - 48 else (jsLowerC c).toNat - 87)) 0

/-- JavaScript `parseInt(s)` with the default radix; `none` stands for `NaN`.
It skips leading whitespace, accepts an optional sign, honours a `0x` hex
prefix, parses the longest leading digit run and ignores the rest. -/
def parseIntJs (s : String) : Option Int :=
  let cs := s.toList.dropWhile jsSpace
  let core : List Char → Option Nat := fun t =>
    match t with
    | '0' :: x :: rest =>
      if (x = 'x' ∨ x = 'X') ∧ (rest.takeWhile isHexC) ≠ [] then
        some (hexToNat (rest.takeWhile isHexC))
      else
        (if (t.takeWhile isDigitC) = [] then none
         else some (digitsToNat (t.takeWhile isDigitC)))
    | t =>
      if (t.takeWhile isDigitC) = [] then none
      else some (digitsToNat (t.takeWhile isDigitC))
  match cs with
  | '-' :: rest => (core rest).map (fun n => -(n : Int))
  | '+' :: rest => (core rest).map (fun n => (n : Int))
  | _ => (core cs).map (fun n => (n : Int))

/-- JavaScript `parseInt(x) || null` on an optional string: `NaN` and `0` are
both falsy and collapse to `null`. `parseInt(undefined)` is `NaN`. -/
def parseIntOrNull (s : Option String) : Option Int :=
  match s with
  | none => none
  | some v =>
    match parseIntJs v with
    | none => none
    | some n => if n = 0 then none else some n

/-! ## Regular-expression engine

A backtracking matcher for the regex subset the source uses.  Sequencing is a
list of atoms; the continuation-passing matcher backtracks exactly as the
JavaScript engine does: leftmost match, alternatives in source order, greedy
quantifiers preferring longer runs, lazy quantifiers preferring shorter ones.
The `i` flag is embedded by comparing literal characters and class ranges under
case folding. -/

inductive CItem where
  | one (c : Char)
  | rng (lo hi : Char)
  | dig
  | wsp
  deriving Repr, DecidableEq

inductive Quant where
  | one
  | star (lazy : Bool)
  | plus (lazy : Bool)
  deriving Repr, DecidableEq

inductive Atom where
  | lit (s : List Char)
  | cls (neg : Bool) (q : Quant) (items : List CItem)
  | grp (idx : Nat) (body : List Atom)
  | alt (branches : List (List Atom))
  | ahead (branches : List (List Atom))
  | eos
  deriving Repr

/-- True when character `c` is matched by one class item under the `i` flag
(ranges admit the case-flipped character, as JavaScript's folding does for the
Latin ranges used here). -/
def cItemMatch (it : CItem) (c : Char) : Bool :=
  match it with
  | .one d => jsLowerC c = jsLowerC d
  | .rng lo hi =>
    (lo ≤ c ∧ c ≤ hi) ∨ (lo ≤ jsLowerC c ∧ jsLowerC c ≤ hi) ∨
    (lo ≤ jsUpperC c ∧ jsUpperC c ≤ hi)
  | .dig => isDigitC c
  | .wsp => jsSpace c

def clsMatch (neg : Bool) (items : List CItem) (c : Char) : Bool :=
  let b := items.any (fun it => cItemMatch it c)
  if neg then !b else b

/-- Consume a literal, comparing case-insensitively; returns the rest. -/
def eatLit : List Char → List Char → Option (List Char)
  | [], s => some s
  | _ :: _, [] => none
  | c :: cs, d :: ds => if jsLowerC c = jsLowerC d then eatLit cs ds else none

/-- Backtracking loop for a quantified character class.  Greedy mode offers the
longest run first, lazy mode the shortest, exactly like the JavaScript engine
on a single-character body. -/
def mStar {α : Type} (p : Char → Bool) (lazy : Bool) :
    List Char → (List Char → Option α) → Option α
  | s, k =>
    if lazy then
      match k s with
      | some r => some r
      | none =>
        match s with
        | [] => none
        | c :: rest => if p c then mStar p lazy rest k else none
    else
      match s with
      | [] => k []
      | c :: rest =>
        if p c then
          match mStar p lazy rest k with
          | some r => some r
          | none => k s
        else k s

/-- Capture store: group index paired with the captured characters; the most
recent assignment is listed first. -/
abbrev Caps := List (Nat × List Char)

def getCap (caps : Caps) (i : Nat) : Option String :=
  (caps.find? (fun pr => pr.1 = i)).map (fun pr => String.mk pr.2)

/-- The matcher.  `fuel` bounds the sequential/nesting recursion depth (the
quantifier loops are handled by `mStar` and consume no fuel); every call site
supplies at least the atom-count of the pattern, which is sufficient. -/
def mSeq : Nat → List Atom → List Char → Caps →
    (List Char → Caps → Option (List Char × Caps)) → Option (List Char × Caps)
  | 0, _, _, _, _ => none
  | _ + 1, [], s, caps, k => k s caps
  | f + 1, .lit l :: as, s, caps, k =>
    match eatLit l s with
    | some s' => mSeq f as s' caps k
    | none => none
  | f + 1, .cls neg q items :: as, s, caps, k =>
    let p := clsMatch neg items
    match q with
    | .one =>
      match s with
      | [] => none
      | c :: rest => if p c then mSeq f as rest caps k else none
    | .star lz => mStar p lz s (fun s' => mSeq f as s' caps k)
    | .plus lz =>
      match s with
      | [] => none
      | c :: rest =>
        if p c then mStar p lz rest (fun s' => mSeq f as s' caps k) else none
  | f + 1, .grp i body :: as, s, caps, k =>
    mSeq f body s caps (fun s' caps' =>
      mSeq f as s' ((i, s.take (s.length - s'.length)) :: caps') k)
  | f + 1, .alt branches :: as, s, caps, k =>
    branches.foldr
      (fun b acc =>
        match mSeq f (b ++ as) s caps k with
        | some r => some r
        | none => acc) none
  | f + 1, .ahead branches :: as, s, caps, k =>
    if branches.any (fun b =>
        (mSeq f b s caps (fun s' caps' => some (s', caps'))).isSome) then
      mSeq f as s caps k
    else none
  | f + 1, .eos :: as, s, caps, k =>
    match s with
    | [] => mSeq f as [] caps k
    | _ :: _ => none

mutual

/-- Fuel bound: total number of nodes of the pattern. -/
def sizeA : Atom → Nat
  | .lit _ => 1
  | .cls _ _ _ => 1
  | .grp _ body => 1 + sizeL body
  | .alt bs => 1 + sizeBr bs
  | .ahead bs => 1 + sizeBr bs
  | .eos => 1

def sizeL : List Atom → Nat
  | [] => 0
  | a :: as => sizeA a + sizeL as

def sizeBr : List (List Atom) → Nat
  | [] => 0
  | b :: bs => sizeL b + sizeBr bs

end

/-- One regex match: characters before the match, the matched run, the rest of
the input, and the captures. -/
structure MRes where
  pre : Nat
  matched : List Char
  rest : List Char
  caps : Caps
  deriving Repr

/-- Leftmost match, attempting each start position in order — the semantics of
`RegExp.prototype.exec` / `String.prototype.match`. -/
def reFindAux (r : List Atom) : List Char → Nat → Option MRes
  | s, start =>
    match mSeq (sizeL r + 1) r s [] (fun s' caps => some (s', caps)) with
    | some (s', caps) =>
      some ⟨start, s.take (s.length - s'.length), s', caps⟩
    | none =>
      match s with
      | [] => none
      | _ :: rest => reFindAux r rest (start + 1)

def reFind (r : List Atom) (s : String) : Option MRes :=
  reFindAux r s.toList 0

/-- All matches in order, as a global `exec` loop collects them.  An empty
match advances by one character (no pattern in this development can match the
empty string, so that clause is never exercised). -/
def reAllAux (r : List Atom) : Nat → List Char → List MRes
  | 0, _ => []
  | _ + 1, [] =>
    match reFindAux r [] 0 with
    | some m => [m]
    | none => []
  | fuel + 1, s =>
    match reFindAux r s 0 with
    | none => []
    | some m =>
      match m.matched with
      | [] => m :: reAllAux r fuel (s.drop (m.pre + 1))
      | _ :: _ => m :: reAllAux r fuel m.rest

def reAll (r : List Atom) (s : String) : List MRes :=
  reAllAux r (s.length + 1) s.toList

/-! ### Atom shorthands -/

def lA (s : String) : Atom := Atom.lit s.toList

def litL (l : List Char) : Atom := Atom.lit l

def cOne (its : List CItem) : Atom := Atom.cls false Quant.one its

def cStar (its : List CItem) : Atom := Atom.cls false (Quant.star false) its

def cStarL (its : List CItem) : Atom := Atom.cls false (Quant.star true) its

def cPlus (its : List CItem) : Atom := Atom.cls false (Quant.plus false) its

def cPlusL (its : List CItem) : Atom := Atom.cls false (Quant.plus true) its

def nStar (cs : List Char) : Atom := Atom.cls true (Quant.star false) (cs.map CItem.one)

def nPlus (cs : List Char) : Atom := Atom.cls true (Quant.plus false) (cs.map CItem.one)

def nPlusL (cs : List Char) : Atom := Atom.cls true (Quant.plus true) (cs.map CItem.one)

/-- The `[\s\S]` class: a negated empty class matches every character. -/
def anyStarL : Atom := Atom.cls true (Quant.star true) []

/-- The apostrophe character, written by code point. -/
def aposC : Char := Char.ofNat 39

def colonWs : List CItem := [CItem.one ':', CItem.wsp]

def wsI : List CItem := [CItem.wsp]

def digI : List CItem := [CItem.dig]

/-- Exactly `n` digits, captured as group `i` — the `(\d{n})` construct. -/
def dN (i n : Nat) : Atom := Atom.grp i (List.replicate n (cOne digI))

/-- Group `i` capturing `(\d+)`. -/
def dPlusG (i : Nat) : Atom := Atom.grp i [cPlus digI]

/-! ## `parseMultasFromHtml` — the fines parser of cloudflare-worker.js
(`src/unnamed/part_002`, lines 399–535)

The JS result also carries a `timestamp` and a constant `source` tag; both are
environment-dependent or constant and are omitted here.  The `catch` branch is
dead in the embedding because every operation the `try` block performs is
total. -/

structure Multa where
  rol : String
  tipo : String
  descripcion : String
  estado : String
  comuna : Option String := none
  anio : Option Int := none
  deriving Repr, DecidableEq

structure InfoVehiculo where
  nombre : Option String := none
  vehiculo : Option String := none
  anio : Option Int := none
  color : Option String := none
  deriving Repr, DecidableEq

structure MultasResult where
  patente : String
  tieneMultas : Bool
  cantidadMultas : Int
  mensaje : String
  informacionVehiculo : InfoVehiculo
  multas : List Multa
  deriving Repr, DecidableEq

def indicadoresSinMultas : List String :=
  ["no se encontraron multas", "sin multas", "no tiene multas",
   "no hay multas", "sin infracciones", "no hay infracciones"]

/-- The early-exit test: `indicadoresSinMultas.some(i => html.toLowerCase().includes(i.toLowerCase()))`. -/
def hasNoMultas (html : String) : Bool :=
  indicadoresSinMultas.any (fun ind => jsIncludes (jsLowerS html) (jsLowerS ind))

/-- Class `[A-ZÁÉÍÓÚÑÜ\s]`. -/
def upAccWs : List CItem :=
  [CItem.rng 'A' 'Z', CItem.one 'Á', CItem.one 'É', CItem.one 'Í',
   CItem.one 'Ó', CItem.one 'Ú', CItem.one 'Ñ', CItem.one 'Ü', CItem.wsp]

/-- Class `[A-ZÁÉÍÓÚÑÜ]`. -/
def upAcc : List CItem :=
  [CItem.rng 'A' 'Z', CItem.one 'Á', CItem.one 'É', CItem.one 'Í',
   CItem.one 'Ó', CItem.one 'Ú', CItem.one 'Ñ', CItem.one 'Ü']

/-- Class `[A-Za-záéíóúñü\s]`. -/
def anyCaseAccWs : List CItem :=
  [CItem.rng 'A' 'Z', CItem.rng 'a' 'z', CItem.one 'á', CItem.one 'é',
   CItem.one 'í', CItem.one 'ó', CItem.one 'ú', CItem.one 'ñ',
   CItem.one 'ü', CItem.wsp]

/-- Regex `/Nombre[:\s]+([A-ZÁÉÍÓÚÑÜ\s]+?)(?:<|Vehiculo|RUT|Año)/i`. -/
def nombreRe : List Atom :=
  [lA "Nombre", cPlus colonWs, Atom.grp 1 [cPlusL upAccWs],
   Atom.alt [[lA "<"], [lA "Vehiculo"], [lA "RUT"], [lA "Año"]]]

/-- Regex `/Vehiculo[:\s]+([^<]+?)(?=<|Año|Color|$)/i`. -/
def vehiculoInfoRe : List Atom :=
  [lA "Vehiculo", cPlus colonWs, Atom.grp 1 [nPlusL ['<']],
   Atom.ahead [[lA "<"], [lA "Año"], [lA "Color"], [Atom.eos]]]

/-- Regex `/Año[:\s]+(\d{4})/i`. -/
def anioSimpleRe : List Atom := [lA "Año", cPlus colonWs, dN 1 4]

/-- Regex `/Color[:\s]+([A-ZÁÉÍÓÚÑÜ]+)/i`. -/
def colorInfoRe : List Atom := [lA "Color", cPlus colonWs, Atom.grp 1 [cPlus upAcc]]

/-- The `informacionVehiculo` assembly of `parseMultasFromHtml`. -/
def infoVehiculoOf (html : String) : InfoVehiculo :=
  { nombre := (reFind nombreRe html).bind (fun m => (getCap m.caps 1).map jsTrim)
    vehiculo := (reFind vehiculoInfoRe html).bind (fun m => (getCap m.caps 1).map jsTrim)
    anio := (reFind anioSimpleRe html).bind (fun m => (getCap m.caps 1).bind parseIntJs)
    color := (reFind colorInfoRe html).bind (fun m => (getCap m.caps 1).map jsTrim) }

/-- Regex `/ROL\/CAUSA[:\s]+(\d+)|rol[:\s]*["'](\d+)["']|causa[:\s]*["'](\d+)["']/gi`. -/
def multasRegex : List Atom :=
  [Atom.alt
    [[lA "ROL/CAUSA", cPlus colonWs, dPlusG 1],
     [lA "rol", cStar colonWs, cOne [CItem.one '"', CItem.one aposC],
      dPlusG 2, cOne [CItem.one '"', CItem.one aposC]],
     [lA "causa", cStar colonWs, cOne [CItem.one '"', CItem.one aposC],
      dPlusG 3, cOne [CItem.one '"', CItem.one aposC]]]]

/-- First truthy capture among the given group indices, as a chain of
`match[i] || match[j] || …` computes it. -/
def firstTruthyCap (caps : Caps) : List Nat → Option String
  | [] => none
  | i :: is =>
    match getCap caps i with
    | some v => if v = "" then firstTruthyCap caps is else some v
    | none => firstTruthyCap caps is

/-- One `exec`-loop step of the `rolesEncontrados` Set: insert the first
truthy capture unless already present (JavaScript `Set.add`). -/
def addRolStep (acc : List String) (m : MRes) : List String :=
  match firstTruthyCap m.caps [1, 2, 3] with
  | some rol => if acc.contains rol then acc else acc ++ [rol]
  | none => acc

/-- The `rolesEncontrados` Set: every `ROL/CAUSA` token in order, duplicates
collapsed by JavaScript `Set` insertion semantics. -/
def rolesFound (html : String) : List String :=
  (reAll multasRegex html).foldl addRolStep []

/-- Regex `/<div[^>]*class[^>]*multa[^>]*>[\s\S]*?<\/div>|<tr[^>]*>[\s\S]*?ROL[^<]*(\d{6})[^<]*<[\s\S]*?<\/tr>/gi`. -/
def multaBlockRegex : List Atom :=
  [Atom.alt
    [[lA "<div", nStar ['>'], lA "class", nStar ['>'], lA "multa",
      nStar ['>'], lA ">", anyStarL, lA "</div>"],
     [lA "<tr", nStar ['>'], lA ">", anyStarL, lA "ROL", nStar ['<'],
      dN 1 6, nStar ['<'], lA "<", anyStarL, lA "</tr>"]]]

/-- Regex `/ROL[\/\s]*CAUSA[:\s]*(\d+)|rol[:\s]*["'](\d+)["']/i`. -/
def rolBlockRe : List Atom :=
  [Atom.alt
    [[lA "ROL", cStar [CItem.one '/', CItem.wsp], lA "CAUSA", cStar colonWs, dPlusG 1],
     [lA "rol", cStar colonWs, cOne [CItem.one '"', CItem.one aposC],
      dPlusG 2, cOne [CItem.one '"', CItem.one aposC]]]]

/-- Regex `/comuna[:\s]*([A-ZÁÉÍÓÚÑÜ\s]+?)(?:<|$)/i`. -/
def comunaRe : List Atom :=
  [lA "comuna", cStar colonWs, Atom.grp 1 [cPlusL upAccWs],
   Atom.alt [[lA "<"], [Atom.eos]]]

/-- Regex `/estado[:\s]*([A-Za-záéíóúñü\s]+?)(?:<|$)/i`. -/
def estadoRe : List Atom :=
  [lA "estado", cStar colonWs, Atom.grp 1 [cPlusL anyCaseAccWs],
   Atom.alt [[lA "<"], [Atom.eos]]]

/-- Regex `/año[:\s]*(\d{4})/i`. -/
def anioMultaRe : List Atom := [lA "año", cStar colonWs, dN 1 4]

/-- Regex `/tipo[:\s]*([^<]+?)(?=<|$)/i`. -/
def tipoRe : List Atom :=
  [lA "tipo", cStar colonWs, Atom.grp 1 [nPlusL ['<']],
   Atom.ahead [[lA "<"], [Atom.eos]]]

/-- Detail extraction applied to one block matched by `multaBlockRegex`.
Returns `none` when the inner `rolMatch` fails, mirroring the
`if (rolMatch)` guard (a successful `rolMatch` always sets group 1 or 2, so
the default `""` for `rol` is never reached). -/
def detalleOfBlock (block : String) : Option Multa :=
  match reFind rolBlockRe block with
  | none => none
  | some rm =>
    let rol := (firstTruthyCap rm.caps [1, 2]).getD ""
    some
      { rol := rol
        tipo :=
          match reFind tipoRe block with
          | some tm => jsTrim ((getCap tm.caps 1).getD "")
          | none => "MULTA POR ROL/CAUSA"
        descripcion := "Multa por ROL/CAUSA " ++ rol
        estado :=
          match reFind estadoRe block with
          | some em => jsTrim ((getCap em.caps 1).getD "")
          | none => "Pendiente"
        comuna := (reFind comunaRe block).map (fun cm => jsTrim ((getCap cm.caps 1).getD ""))
        anio := (reFind anioMultaRe block).bind (fun am => (getCap am.caps 1).bind parseIntJs) }

/-- The `multasConDetalles` array: one entry per `multaBlockRegex` match whose
inner `rolMatch` succeeds, in match order and without deduplication. -/
def multasDetalles (html : String) : List Multa :=
  (reAll multaBlockRegex html).filterMap (fun m => detalleOfBlock (String.mk m.matched))

/-- Regex `/multas encontradas[:\s]*(\d+)/i`. -/
def cantRe1 : List Atom := [lA "multas encontradas", cStar colonWs, dPlusG 1]

/-- Regex `/tiene[:\s]*(\d+)[:\s]*multa/i`. -/
def cantRe2 : List Atom := [lA "tiene", cStar colonWs, dPlusG 1, cStar colonWs, lA "multa"]

/-- Regex `/infracciones encontradas[:\s]*(\d+)/i`. -/
def cantRe3 : List Atom := [lA "infracciones encontradas", cStar colonWs, dPlusG 1]

/-- The explicit count hint: the `cantidadMatch` chain of the three patterns
followed by `parseInt(cantidadMatch[1])`. -/
def cantidadHint (html : String) : Option Int :=
  let m :=
    match reFind cantRe1 html with
    | some m => some m
    | none =>
      match reFind cantRe2 html with
      | some m => some m
      | none => reFind cantRe3 html
  m.bind (fun m => (getCap m.caps 1).bind parseIntJs)

/-- The freshly initialised result record of `parseMultasFromHtml`. -/
def parseMultasInit (patente : String) : MultasResult :=
  { patente := patente, tieneMultas := false, cantidadMultas := 0,
    mensaje := "No se encontraron multas", informacionVehiculo := {}, multas := [] }

/-- The minimal entry the roles-only strategy synthesizes for one rol token. -/
def rolEntry (rol : String) : Multa :=
  { rol := rol, tipo := "MULTA POR ROL/CAUSA",
    descripcion := "Multa por ROL/CAUSA " ++ rol,
    estado := "Pendiente" }

/-- The state of the result after both extraction strategies ran and before
the explicit count hint is reconciled (the code between the early `return` and
the `cantidadMatch` block). -/
def parseMultasPre (html patente : String) : MultasResult :=
  let result :=
    { parseMultasInit patente with informacionVehiculo := infoVehiculoOf html }
  let roles := rolesFound html
  let detalles := multasDetalles html
  if 0 < detalles.length then
    { result with
      multas := detalles
      cantidadMultas := (detalles.length : Int)
      tieneMultas := true
      mensaje := "Se encontraron " ++ toString detalles.length ++ " multa(s)" }
  else if 0 < roles.length then
    { result with
      multas := roles.map rolEntry
      cantidadMultas := (roles.length : Int)
      tieneMultas := true
      mensaje := "Se encontraron " ++ toString roles.length ++ " multa(s)" }
  else result

/-- The `cantidadMatch` reconciliation: a hint strictly above the current
count overrides `cantidadMultas`, `tieneMultas` and `mensaje` but leaves
`multas` untouched. -/
def applyCantidadHint (html : String) (result : MultasResult) : MultasResult :=
  match cantidadHint html with
  | some cantidad =>
    if result.cantidadMultas < cantidad then
      { result with
        cantidadMultas := cantidad
        tieneMultas := decide (0 < cantidad)
        mensaje :=
          if 0 < cantidad then "Se encontraron " ++ toString cantidad ++ " multa(s)"
          else "No se encontraron multas" }
    else result
  | none => result

/-- Shallow embedding of `parseMultasFromHtml(html, patente)`. -/
def parseMultasFromHtml (html patente : String) : MultasResult :=
  if hasNoMultas html then
    { parseMultasInit patente with mensaje := "No se encontraron multas" }
  else
    applyCantidadHint html (parseMultasPre html patente)

/-! ## Shared helpers for the extraction helpers of both workers -/

/-- The for-loop over a pattern list: the first pattern whose attempt returns a
value wins and later patterns are not consulted. -/
def firstValid {α β : Type} (f : α → Option β) : List α → Option β
  | [] => none
  | p :: ps =>
    match f p with
    | some v => some v
    | none => firstValid f ps

/-- JavaScript `a || b` on nullable strings (`""` is falsy). -/
def jsOr (a b : Option String) : Option String :=
  match a with
  | some v => if v = "" then b else some v
  | none => b

/-- Truthiness of a nullable string. -/
def optTruthy (o : Option String) : Bool :=
  match o with
  | some v => v ≠ ""
  | none => false

/-! ## `parseResultadosHtml` — cloudflare-worker-vehiculo.js (`src/unnamed/part_000`)

Identifier note: the JS property `año` is spelled `anio` here because `ñ` is
not a Lean identifier character.  The JS record also carries `timestamp`,
`source` and a never-assigned `gases` field; these are omitted. -/

def errorPatterns : List String :=
  ["no se encontr", "patente no válida", "error al consultar", "sin resultados"]

/-- The negative-result phrase test of `parseResultadosHtml` (on the
lowercased page). -/
def hasErrorPattern (html : String) : Bool :=
  errorPatterns.any (fun p => jsIncludes (jsLowerS html) p)

/-- The positive `multas` token test guarding the early not-found exit. -/
def hasMultasToken (html : String) : Bool :=
  jsIncludes (jsLowerS html) "multas"

/-- The four label patterns of `part_000`'s `extractValue`, in source order.
The `i` flag is embedded by storing the label case-folded; the fixed pattern
text contains no cased letters.  Original sources:
pattern 1 `<td[^>]*>\s*<b>L<\/b>\s*<\/td>\s*<td[^>]*>([^<]+)<\/td>`,
pattern 2 `<td[^>]*>L\s*<\/td>\s*<td[^>]*>([^<]+)<\/td>`,
pattern 3 `<b>L<\/b>\s*[:\s]*([^<]+)(?:<|$)`,
pattern 4 `L[:\s]+([^<\n]+)`. -/
def patterns000 (label : String) : List (List Atom) :=
  let ll := lowerL label.toList
  [[lA "<td", nStar ['>'], lA ">", cStar wsI, lA "<b>", litL ll, lA "</b>",
    cStar wsI, lA "</td>", cStar wsI, lA "<td", nStar ['>'], lA ">",
    Atom.grp 1 [nPlus ['<']], lA "</td>"],
   [lA "<td", nStar ['>'], lA ">", litL ll, cStar wsI, lA "</td>", cStar wsI,
    lA "<td", nStar ['>'], lA ">", Atom.grp 1 [nPlus ['<']], lA "</td>"],
   [lA "<b>", litL ll, lA "</b>", cStar wsI, cStar colonWs,
    Atom.grp 1 [nPlus ['<']], Atom.alt [[lA "<"], [Atom.eos]]],
   [litL ll, cPlus colonWs, Atom.grp 1 [nPlus ['<', '\n']]]]

/-- One pattern attempt of `part_000`'s `extractValue`: on a match with a
truthy group 1, trim it and keep it unless it is empty, `"-"` or `"N/A"`. -/
def tryPat000 (html : String) (pat : List Atom) : Option String :=
  match reFind pat html with
  | none => none
  | some m =>
    match getCap m.caps 1 with
    | none => none
    | some c =>
      if c = "" then none
      else if jsTrim c ≠ "" ∧ jsTrim c ≠ "-" ∧ jsTrim c ≠ "N/A" then some (jsTrim c)
      else none

/-- Shallow embedding of `part_000`'s `extractValue(label)` over `html`. -/
def extractValue000 (html label : String) : Option String :=
  firstValid (tryPat000 html) (patterns000 label)

structure Propietario where
  rut : Option String
  nombre : Option String
  deriving Repr, DecidableEq

structure VehiculoData where
  patente : String
  tipo : Option String
  marca : Option String
  modelo : Option String
  anio : Option Int
  color : Option String
  numeroMotor : Option String
  numeroChasis : Option String
  procedencia : Option String
  fabricante : Option String
  tipoSello : Option String
  combustible : Option String
  deriving Repr, DecidableEq

/-- The `Object.values(vehiculoData).some(v => v !== null && v !== patente)`
guard.  A string field counts when it differs from `patente`; a number field
counts whenever it is non-null (a number is never `===` a string). -/
def vehiculoHasData (vd : VehiculoData) (patente : String) : Bool :=
  let opt : Option String → Bool := fun o =>
    match o with
    | some v => v ≠ patente
    | none => false
  vd.patente ≠ patente ∨ opt vd.tipo ∨ opt vd.marca ∨ opt vd.modelo ∨
  vd.anio.isSome ∨ opt vd.color ∨ opt vd.numeroMotor ∨ opt vd.numeroChasis ∨
  opt vd.procedencia ∨ opt vd.fabricante ∨ opt vd.tipoSello ∨ opt vd.combustible

structure MultasInfo where
  tiene : Bool
  cantidad : Int
  mensaje : String
  deriving Repr, DecidableEq

structure RevisionTecnica000 where
  kilometraje : Option String
  comuna : Option String
  mes : Option String
  ultimoControl : Option String
  fechaVencimiento : Option String
  deriving Repr, DecidableEq

structure Permiso000 where
  anioPago : Option String
  municipalidad : Option String
  fechaPago : Option String
  deriving Repr, DecidableEq

structure SoapInfo where
  compania : Option String
  fechaInicio : Option String
  deriving Repr, DecidableEq

structure TransportePublico where
  es : Option String
  tipo : Option String
  deriving Repr, DecidableEq

structure RestriccionVehicular where
  condicion : String
  deriving Repr, DecidableEq

structure ResultadosRecord where
  success : Bool
  patente : String
  propietario : Option Propietario := none
  vehiculo : Option VehiculoData := none
  multas : Option MultasInfo := none
  revisionTecnica : Option RevisionTecnica000 := none
  permisoCirculacion : Option Permiso000 := none
  soap : Option SoapInfo := none
  transportePublico : Option TransportePublico := none
  restriccionVehicular : Option RestriccionVehicular := none
  error : Option String := none
  deriving Repr, DecidableEq

/-- Regex `/Año[:\s]*<\/td>\s*<td[^>]*>(\d{4})/i` (first year pattern of `part_000`). -/
def anio000Re : List Atom :=
  [lA "Año", cStar colonWs, lA "</td>", cStar wsI, lA "<td", nStar ['>'],
   lA ">", dN 1 4]

/-- The year extraction of `part_000`: first pattern, else `/Año[:\s]+(\d{4})/i`,
then `parseInt` of group 1. -/
def anio000 (html : String) : Option Int :=
  let m :=
    match reFind anio000Re html with
    | some m => some m
    | none => reFind anioSimpleRe html
  m.bind (fun m => (getCap m.caps 1).bind parseIntJs)

/-- Regex `/tiene multas[:\s]*(sí|si|no)/i`. -/
def tieneMRe1 : List Atom :=
  [lA "tiene multas", cStar colonWs,
   Atom.grp 1 [Atom.alt [[lA "sí"], [lA "si"], [lA "no"]]]]

/-- Regex `/(no tiene multas|sin multas)/i`. -/
def tieneMRe2 : List Atom :=
  [Atom.grp 1 [Atom.alt [[lA "no tiene multas"], [lA "sin multas"]]]]

/-- Regex `/cantidad[:\s]*(\d+)/i`. -/
def cantidadRe : List Atom := [lA "cantidad", cStar colonWs, dPlusG 1]

/-- Regex `/(\d+)\s*multa/i`. -/
def nMultaRe : List Atom := [dPlusG 1, cStar wsI, lA "multa"]

/-- Shallow embedding of `parseResultadosHtml(html, patente)`. -/
def parseResultadosHtml (html patente : String) : ResultadosRecord :=
  if hasErrorPattern html ∧ ¬ hasMultasToken html then
    { success := false, patente := patente,
      error := some "Patente no encontrada o error en consulta" }
  else
    let e := extractValue000 html
    let rut := e "RUT"
    let nombre := e "Nombre"
    let vehiculoData : VehiculoData :=
      { patente := (jsOr (e "Patente") (some patente)).getD patente
        tipo := e "Tipo", marca := e "Marca", modelo := e "Modelo"
        anio := anio000 html
        color := e "Color"
        numeroMotor := jsOr (jsOr (e "N° de motor") (e "Numero Motor")) (e "Motor")
        numeroChasis := jsOr (jsOr (e "N° de chasis") (e "Numero Chasis")) (e "Chasis")
        procedencia := e "Procedencia", fabricante := e "Fabricante"
        tipoSello := jsOr (e "Tipo Sello") (e "Sello")
        combustible := e "Combustible" }
    let tieneM :=
      match reFind tieneMRe1 html with
      | some m => some m
      | none => reFind tieneMRe2 html
    let cantM :=
      match reFind cantidadRe html with
      | some m => some m
      | none => reFind nMultaRe html
    let rtData : RevisionTecnica000 :=
      { kilometraje := e "Kilometraje", comuna := e "Comuna", mes := e "Mes"
        ultimoControl := jsOr (e "Último Control") (e "Ultimo Control")
        fechaVencimiento := jsOr (e "Fecha de Vencimiento") (e "Vencimiento") }
    let permisoData : Permiso000 :=
      { anioPago := jsOr (e "Año Pago") (e "Permiso")
        municipalidad := e "Municipalidad"
        fechaPago := jsOr (e "Fecha de Pago") (e "Fecha Pago") }
    let soapData : SoapInfo :=
      { compania := jsOr (jsOr (e "Compañía") (e "Compania")) (e "SOAP")
        fechaInicio := jsOr (e "Fecha Inicio") (e "Inicio SOAP") }
    let esTransporte := jsOr (e "Es Transporte Público") (e "Transporte")
    let tipoTransporte := e "Tipo Transporte"
    let restriccion := jsOr (e "Restricción") (e "Restriccion Vehicular")
    { success := true
      patente := patente
      propietario :=
        if optTruthy rut ∨ optTruthy nombre then
          some { rut := rut, nombre := nombre }
        else none
      vehiculo :=
        if vehiculoHasData vehiculoData patente then some vehiculoData else none
      multas := some
        { tiene :=
            match tieneM with
            | some m => ! jsIncludes (jsLowerS (String.mk m.matched)) "no"
            | none => false
          cantidad :=
            match cantM.bind (fun m => (getCap m.caps 1).bind parseIntJs) with
            | some n => n
            | none => 0
          mensaje := (jsOr (e "Multas") (some "Sin información")).getD "Sin información" }
      revisionTecnica :=
        if rtData.kilometraje.isSome ∨ rtData.comuna.isSome ∨ rtData.mes.isSome ∨
           rtData.ultimoControl.isSome ∨ rtData.fechaVencimiento.isSome then
          some rtData
        else none
      permisoCirculacion :=
        if permisoData.anioPago.isSome ∨ permisoData.municipalidad.isSome ∨
           permisoData.fechaPago.isSome then
          some permisoData
        else none
      soap :=
        if soapData.compania.isSome ∨ soapData.fechaInicio.isSome then
          some soapData
        else none
      transportePublico :=
        if optTruthy esTransporte ∨ optTruthy tipoTransporte then
          some { es := esTransporte, tipo := tipoTransporte }
        else none
      restriccionVehicular :=
        match restriccion with
        | some r => if r = "" then none else some { condicion := r }
        | none => none }

/-! ## `extractVehicleData` — cloudflare-worker-vehiculo-browser.js (`src/unnamed/part_002`) -/

/-- Literal global replace (`String.prototype.replace` with a `g` literal
pattern): leftmost, non-overlapping.  The fuel equals the input length; every
step consumes at least one character. -/
def replAllAux (needle repl : List Char) : Nat → List Char → List Char
  | 0, s => s
  | _ + 1, [] => []
  | fuel + 1, c :: rest =>
    if frontIs needle (c :: rest) ∧ needle ≠ [] then
      repl ++ replAllAux needle repl fuel ((c :: rest).drop needle.length)
    else c :: replAllAux needle repl fuel rest

def replAll (s needle repl : List Char) : List Char :=
  replAllAux needle repl s.length s

/-- Global replace of `/&#\d+;/g` by the empty string. -/
def stripNumEntAux : Nat → List Char → List Char
  | 0, s => s
  | _ + 1, [] => []
  | fuel + 1, c :: rest =>
    if c = '&' then
      match rest with
      | '#' :: r2 =>
        let ds := r2.takeWhile isDigitC
        let after := r2.drop ds.length
        if 0 < ds.length ∧ after.head? = some ';' then
          stripNumEntAux fuel (after.drop 1)
        else c :: stripNumEntAux fuel rest
      | _ => c :: stripNumEntAux fuel rest
    else c :: stripNumEntAux fuel rest

def stripNumEnt (s : List Char) : List Char := stripNumEntAux s.length s

/-- The entity-stripping chain of `cleanValue`, in source order:
`&nbsp;`→``, `&amp;`→`&`, `&lt;`→`<`, `&gt;`→`>`, `&#\d+;`→``. -/
def cleanEntities (val : List Char) : List Char :=
  stripNumEnt
    (replAll
      (replAll
        (replAll
          (replAll val "&nbsp;".toList [])
          "&amp;".toList ['&'])
        "&lt;".toList ['<'])
      "&gt;".toList ['>'])

/-- The `cleaned` value of `cleanValue`: entity-stripped and trimmed. -/
def cleanedOf (val : String) : String :=
  jsTrim (String.mk (cleanEntities val.toList))

/-- Shallow embedding of `cleanValue(val)` (`part_002`, lines 28–42): falsy
input is `null`; the entity-stripped, trimmed value is dropped when empty,
`"-"`, `"N/A"` or longer than 100 characters. -/
def cleanValue (val : String) : Option String :=
  if val = "" then none
  else if cleanedOf val = "" ∨ cleanedOf val = "-" ∨ cleanedOf val = "N/A" ∨
      100 < (cleanedOf val).length then none
  else some (cleanedOf val)

/-- The six label patterns of `part_002`'s `extractValue`, in source order.
Patterns 1, 2, 5 and 6 coincide with patterns 1–4 of `part_000`; pattern 3 is
`>L[:\s]*<\/[^>]+>\s*<[^>]+>([^<]+)<` and pattern 4 is
`id="[^"]*LID[^"]*"[^>]*>([^<]+)<` with `LID = label.toLowerCase().replace(/\s+/g, '')`. -/
def patterns002 (label : String) : List (List Atom) :=
  let ll := lowerL label.toList
  let lid := ll.filter (fun c => ! jsSpace c)
  [[lA "<td", nStar ['>'], lA ">", cStar wsI, lA "<b>", litL ll, lA "</b>",
    cStar wsI, lA "</td>", cStar wsI, lA "<td", nStar ['>'], lA ">",
    Atom.grp 1 [nPlus ['<']], lA "</td>"],
   [lA "<td", nStar ['>'], lA ">", litL ll, cStar wsI, lA "</td>", cStar wsI,
    lA "<td", nStar ['>'], lA ">", Atom.grp 1 [nPlus ['<']], lA "</td>"],
   [lA ">", litL ll, cStar colonWs, lA "</", nPlus ['>'], lA ">", cStar wsI,
    lA "<", nPlus ['>'], lA ">", Atom.grp 1 [nPlus ['<']], lA "<"],
   [lA "id=\"", nStar ['"'], litL lid, nStar ['"'], lA "\"", nStar ['>'],
    lA ">", Atom.grp 1 [nPlus ['<']], lA "<"],
   [lA "<b>", litL ll, lA "</b>", cStar wsI, cStar colonWs,
    Atom.grp 1 [nPlus ['<']], Atom.alt [[lA "<"], [Atom.eos]]],
   [litL ll, cPlus colonWs, Atom.grp 1 [nPlus ['<', '\n']]]]

/-- One pattern attempt of `part_002`'s `extractValue`: on a match with a
truthy group 1, the `cleanValue` filter decides. -/
def tryPat002 (html : String) (pat : List Atom) : Option String :=
  match reFind pat html with
  | none => none
  | some m =>
    match getCap m.caps 1 with
    | none => none
    | some c => if c = "" then none else cleanValue c

/-- Shallow embedding of `part_002`'s `extractValue(label)` over `pageContent`. -/
def extractValue002 (html label : String) : Option String :=
  firstValid (tryPat002 html) (patterns002 label)

structure MultasTiene where
  tiene : Bool
  cantidad : Int
  deriving Repr, DecidableEq

structure RevisionTecnica002 where
  kilometraje : Option String
  ultimoControl : Option String
  fechaVencimiento : Option String
  deriving Repr, DecidableEq

structure Permiso002 where
  anioPago : Option String
  municipalidad : Option String
  deriving Repr, DecidableEq

structure BrowserRecord where
  success : Bool
  patente : String
  propietario : Option Propietario := none
  vehiculo : Option VehiculoData := none
  multas : Option MultasTiene := none
  revisionTecnica : Option RevisionTecnica002 := none
  permisoCirculacion : Option Permiso002 := none
  soap : Option SoapInfo := none
  error : Option String := none
  deriving Repr, DecidableEq

/-- Regex `/Año[:\s]*<\/[^>]+>\s*<[^>]+>(\d{4})/i` (first year pattern of
`extractVehicleData`). -/
def anio002Re : List Atom :=
  [lA "Año", cStar colonWs, lA "</", nPlus ['>'], lA ">", cStar wsI,
   lA "<", nPlus ['>'], lA ">", dN 1 4]

/-- The year extraction of `extractVehicleData`. -/
def anio002 (html : String) : Option Int :=
  let m :=
    match reFind anio002Re html with
    | some m => some m
    | none => reFind anioSimpleRe html
  m.bind (fun m => (getCap m.caps 1).bind parseIntJs)

/-- Shallow embedding of `extractVehicleData(pageContent, patente)`
(`part_002`, lines 12–141).  Note that `multas`, `revisionTecnica`,
`permisoCirculacion` and `soap` are assigned unconditionally. -/
def extractVehicleData (html patente : String) : BrowserRecord :=
  let e := extractValue002 html
  let rut := e "RUT"
  let nombre := e "Nombre"
  let vehiculoData : VehiculoData :=
    { patente := patente
      tipo := e "Tipo", marca := e "Marca", modelo := e "Modelo"
      anio := anio002 html
      color := e "Color"
      numeroMotor := jsOr (e "N° de motor") (e "Motor")
      numeroChasis := jsOr (e "N° de chasis") (e "Chasis")
      procedencia := e "Procedencia", fabricante := e "Fabricante"
      tipoSello := e "Tipo Sello"
      combustible := e "Combustible" }
  { success := true
    patente := patente
    propietario :=
      if optTruthy rut ∨ optTruthy nombre then
        some { rut := rut, nombre := nombre }
      else none
    vehiculo :=
      if vehiculoHasData vehiculoData patente then some vehiculoData else none
    multas := some
      { tiene := jsIncludes (jsLowerS html) "tiene multas" &&
          ! jsIncludes (jsLowerS html) "no tiene multas"
        cantidad :=
          match (reFind nMultaRe html).bind (fun m => (getCap m.caps 1).bind parseIntJs) with
          | some n => n
          | none => 0 }
    revisionTecnica := some
      { kilometraje := e "Kilometraje"
        ultimoControl := e "Último Control"
        fechaVencimiento := e "Vencimiento" }
    permisoCirculacion := some
      { anioPago := e "Año Pago", municipalidad := e "Municipalidad" }
    soap := some
      { compania := jsOr (e "Compañía") (e "SOAP")
        fechaInicio := e "Fecha Inicio" } }

/-! ## The in-page `getValue` of the browser worker's `page.evaluate`
(`part_002`, lines 261–299)

The DOM is abstracted as the list of table rows, each row the list of its
cell texts — exactly the data `row.querySelectorAll('td')[i].textContent`
exposes. -/

/-- Global replace of `/\s+/g` by a single space. -/
def collapseWsAux : Nat → List Char → List Char
  | 0, s => s
  | _ + 1, [] => []
  | fuel + 1, c :: rest =>
    if jsSpace c then ' ' :: collapseWsAux fuel (rest.dropWhile jsSpace)
    else c :: collapseWsAux fuel rest

def collapseWs (s : String) : String :=
  String.mk (collapseWsAux s.toList.length s.toList)

/-- Shallow embedding of the in-page `getValue(label)`: the first row with at
least two cells whose first cell (trimmed, whitespace collapsed) contains the
label case-insensitively, and whose second cell holds a usable value. -/
def getValueRows (rows : List (List String)) (label : String) : Option String :=
  rows.findSome? (fun cells =>
    if 2 ≤ cells.length then
      let labelCell := collapseWs (jsTrim (cells.headD ""))
      if labelCell ≠ "" ∧ jsIncludes (jsLowerS labelCell) (jsLowerS label) then
        let value := jsTrim ((cells.drop 1).headD "")
        if value ≠ "" ∧ value ≠ "-" ∧ value ≠ "N/A" ∧ ! jsIncludes value "&nbsp;" then
          some value
        else none
      else none
    else none)

/-- The `año: parseInt(getValue('Año')) || null` field of the in-page
`vehiculo` object (`part_002`, line 291). -/
def evalVehiculoAnio (rows : List (List String)) : Option Int :=
  parseIntOrNull (getValueRows rows "Año")

/-! ## `consultarVehiculo` — playwright-scraper.js

The browser session is abstracted as an outcome parameter: the scrape either
throws, finds a `.no-results` element, or produces the `page.evaluate`
payload (whose shape is irrelevant to the plate handling and is left as a
type parameter). -/

inductive PWOutcome (α : Type) where
  | thrown (msg : String)
  | noResults (textContent : Option String)
  | evaluated (data : α)

structure PWRecord (α : Type) where
  success : Bool
  patente : String
  error : Option String := none
  mensaje : Option String := none
  data : Option α := none

/-- Shallow embedding of `consultarVehiculo(patente, tipo)`'s result record:
every exit path sets `patente` to `patente.toUpperCase()`. -/
def consultarVehiculo {α : Type} (patente : String) (outcome : PWOutcome α) :
    PWRecord α :=
  match outcome with
  | .noResults t =>
    { success := false, patente := jsUpperS patente
      error := some "No se encontraron resultados"
      mensaje := some
        (match t with
         | some txt => if jsTrim txt = "" then "Patente no encontrada" else jsTrim txt
         | none => "Patente no encontrada") }
  | .evaluated d =>
    { success := true, patente := jsUpperS patente, data := some d }
  | .thrown msg =>
    { success := false, patente := jsUpperS patente, error := some msg }

/-! ## `consultarPropietario` — volanteomaleta-scraper.js

The scraped results table is abstracted as the optional first row's cell
texts; the in-page extraction returns `null` when the row is missing or has
fewer than eight cells. -/

structure VolRow where
  patente : Option String
  tipo : Option String
  marca : Option String
  modelo : Option String
  rut : Option String
  numeroMotor : Option String
  anio : Option Int
  nombrePropietario : Option String
  deriving Repr, DecidableEq

/-- One cell as the evaluate reads it: `cells[i]?.textContent?.trim() || null`. -/
def cellOpt (cells : List String) (i : Nat) : Option String :=
  let t := jsTrim ((cells.drop i).headD "")
  if t = "" then none else some t

/-- Shallow embedding of the volanteomaleta `page.evaluate` row extraction. -/
def volEvalRow (row : Option (List String)) : Option VolRow :=
  match row with
  | none => none
  | some cells =>
    if cells.length < 8 then none
    else some
      { patente := cellOpt cells 0
        tipo := cellOpt cells 1
        marca := cellOpt cells 2
        modelo := cellOpt cells 3
        rut := cellOpt cells 4
        numeroMotor := cellOpt cells 5
        anio := parseIntOrNull (some (jsTrim ((cells.drop 6).headD "")))
        nombrePropietario := cellOpt cells 7 }

structure PropOwner where
  nombre : Option String
  rut : Option String
  deriving Repr, DecidableEq

structure PropVeh where
  tipo : Option String
  marca : Option String
  modelo : Option String
  anio : Option Int
  numeroMotor : Option String
  deriving Repr, DecidableEq

structure PropRecord where
  success : Bool
  patente : Option String
  propietario : Option PropOwner := none
  vehiculo : Option PropVeh := none
  error : Option String := none
  deriving Repr, DecidableEq

inductive VolOutcome where
  | thrown (msg : String)
  | page (row : Option (List String))

/-- Shallow embedding of `consultarPropietario(patente)`: on failure the
returned `patente` is the uppercased input, but on success it is the text of
the scraped row's first cell. -/
def consultarPropietario (patente : String) (outcome : VolOutcome) : PropRecord :=
  match outcome with
  | .thrown msg =>
    { success := false, patente := some (jsUpperS patente), error := some msg }
  | .page row =>
    match volEvalRow row with
    | none =>
      { success := false, patente := some (jsUpperS patente)
        error := some "No se encontraron resultados" }
    | some r =>
      { success := true
        patente := r.patente
        propietario := some { nombre := r.nombrePropietario, rut := r.rut }
        vehiculo := some
          { tipo := r.tipo, marca := r.marca, modelo := r.modelo
            anio := r.anio, numeroMotor := r.numeroMotor } }

/-! ## `handleRequest` — api-server.js (`src/unnamed/part_003`)

Query-string/JSON-body parsing is abstracted: the handler receives the
already-extracted optional `patente` and `tipo` values (a missing parameter is
`none`, an empty one `some ""`, both falsy).  The adapter call is a parameter
returning either a payload (opaque here) or a thrown message; the list of
calls made is returned alongside the response so that "no adapter call" is
observable. -/

inductive ApiCall where
  | propietario (patente : String)
  | multas (patente : String)
  | consultar (patente : String) (tipo : String)
  deriving Repr, DecidableEq

structure ApiResponse where
  status : Int
  success : Option Bool := none
  error : Option String := none
  deriving Repr, DecidableEq

/-- Shallow embedding of `handleRequest` for the scraping endpoints.  The
health-check and batch endpoints are outside the claims and return their
status codes with an empty body model. -/
def handleRequest (path method : String) (patente tipo : Option String)
    (runCall : ApiCall → Except String Unit) : ApiResponse × List ApiCall :=
  let falsy : Option String → Bool := fun o =>
    match o with
    | none => true
    | some v => v = ""
  let tipoVal :=
    match tipo with
    | some t => if t = "" then "vehiculo" else t
    | none => "vehiculo"
  if method = "OPTIONS" then ({ status := 200 }, [])
  else if path = "/" ∨ path = "/health" then ({ status := 200 }, [])
  else if path = "/propietario" then
    if method ≠ "GET" ∧ method ≠ "POST" then
      ({ status := 405, error := some "Method not allowed" }, [])
    else if falsy patente then
      ({ status := 400, error := some "Patente es requerida" }, [])
    else
      let p := patente.getD ""
      match runCall (.propietario p) with
      | .ok _ => ({ status := 200 }, [.propietario p])
      | .error msg =>
        ({ status := 500, success := some false, error := some msg }, [.propietario p])
  else if path = "/multas" then
    if method ≠ "GET" ∧ method ≠ "POST" then
      ({ status := 405, error := some "Method not allowed" }, [])
    else if falsy patente then
      ({ status := 400, error := some "Patente es requerida" }, [])
    else
      let p := patente.getD ""
      match runCall (.multas p) with
      | .ok _ => ({ status := 200 }, [.multas p])
      | .error msg =>
        ({ status := 500, success := some false, error := some msg }, [.multas p])
  else if path = "/consultar" then
    if method ≠ "GET" ∧ method ≠ "POST" then
      ({ status := 405, error := some "Method not allowed" }, [])
    else if falsy patente then
      ({ status := 400, error := some "Patente es requerida" }, [])
    else
      let p := patente.getD ""
      match runCall (.consultar p tipoVal) with
      | .ok _ => ({ status := 200 }, [.consultar p tipoVal])
      | .error msg =>
        ({ status := 500, success := some false, error := some msg },
         [.consultar p tipoVal])
  else ({ status := 404, error := some "Endpoint no encontrado" }, [])

/-- The plate guard shared by the worker `fetch` handlers (`part_000` lines
194–201, `part_002` lines 158–166): a missing or empty `patente` query
parameter short-circuits to a 400 JSON error (whose body has an `error` and a
`usage` key but no `success` key) before any upstream request is attempted;
otherwise the handler proceeds (`none`). -/
def workerPlateGuard (patente : Option String) : Option ApiResponse :=
  match patente with
  | none => some { status := 400, error := some "Parámetro \"patente\" es requerido" }
  | some p =>
    if p = "" then
      some { status := 400, error := some "Parámetro \"patente\" es requerido" }
    else none

/-! ## Supporting lemmas -/

/-- Non-placeholder string: not empty, not `"-"`, not `"N/A"`. -/
def okStr (v : String) : Prop := v ≠ "" ∧ v ≠ "-" ∧ v ≠ "N/A"

instance (v : String) : Decidable (okStr v) := by
  unfold okStr; infer_instance

/-- Non-placeholder optional string. -/
def okOpt (o : Option String) : Prop := ∀ v, o = some v → okStr v

theorem firstValid_mem {α β : Type} {f : α → Option β} {ps : List α} {v : β}
    (h : firstValid f ps = some v) : ∃ p ∈ ps, f p = some v := by
  induction ps with
  | nil => simp [firstValid] at h
  | cons p ps ih =>
    rw [firstValid] at h
    cases hp : f p with
    | some w =>
      refine ⟨p, List.mem_cons_self p ps, hp.trans ?_⟩
      rw [hp] at h
      exact h
    | none =>
      rw [hp] at h
      obtain ⟨q, hq, hfq⟩ := ih h
      exact ⟨q, List.mem_cons_of_mem _ hq, hfq⟩

theorem firstValid_none_iff {α β : Type} {f : α → Option β} {ps : List α} :
    firstValid f ps = none ↔ ∀ p ∈ ps, f p = none := by
  induction ps with
  | nil => simp [firstValid]
  | cons p ps ih =>
    rw [firstValid]
    cases hp : f p with
    | some w => simp [hp]
    | none => simpa [hp] using ih

theorem firstValid_of_first {α β : Type} {f : α → Option β} {ps : List α}
    {i : Nat} {v : β} (hi : i < ps.length)
    (hnone : ∀ j (hj : j < i), f (ps.get ⟨j, Nat.lt_trans hj hi⟩) = none)
    (hsome : f (ps.get ⟨i, hi⟩) = some v) :
    firstValid f ps = some v := by
  induction ps generalizing i with
  | nil => exact absurd hi (by simp)
  | cons p ps ih =>
    cases i with
    | zero =>
      rw [firstValid]
      rw [show f p = some v from hsome]
    | succ n =>
      rw [firstValid]
      rw [show f p = none from hnone 0 (Nat.succ_pos n)]
      exact ih (Nat.lt_of_succ_lt_succ hi)
        (fun j hj => hnone (j + 1) (Nat.succ_lt_succ hj))
        hsome

theorem tryPat000_ok {html : String} {pat : List Atom} {v : String}
    (h : tryPat000 html pat = some v) : okStr v := by
  unfold tryPat000 at h
  split at h
  · exact absurd h (by simp)
  · split at h
    · exact absurd h (by simp)
    · split at h
      · exact absurd h (by simp)
      · split at h
        · rename_i hguard
          cases h
          exact hguard
        · exact absurd h (by simp)

theorem extractValue000_ok {html label v : String}
    (h : extractValue000 html label = some v) : okStr v := by
  obtain ⟨p, _, hp⟩ := firstValid_mem h
  exact tryPat000_ok hp

theorem cleanValue_ok {s v : String} (h : cleanValue s = some v) :
    okStr v ∧ v.length ≤ 100 := by
  unfold cleanValue at h
  split at h
  · exact absurd h (by simp)
  · split at h
    · exact absurd h (by simp)
    · rename_i hguard
      cases h
      push_neg at hguard
      exact ⟨⟨hguard.1, hguard.2.1, hguard.2.2.1⟩, hguard.2.2.2⟩

theorem tryPat002_ok {html : String} {pat : List Atom} {v : String}
    (h : tryPat002 html pat = some v) : okStr v ∧ v.length ≤ 100 := by
  unfold tryPat002 at h
  split at h
  · exact absurd h (by simp)
  · split at h
    · exact absurd h (by simp)
    · split at h
      · exact absurd h (by simp)
      · exact cleanValue_ok h

theorem extractValue002_ok {html label v : String}
    (h : extractValue002 html label = some v) : okStr v ∧ v.length ≤ 100 := by
  obtain ⟨p, _, hp⟩ := firstValid_mem h
  exact tryPat002_ok hp

theorem extractValue000_okOpt (html label : String) :
    okOpt (extractValue000 html label) :=
  fun _ h => extractValue000_ok h

theorem jsOr_okOpt {a b : Option String} (ha : okOpt a) (hb : okOpt b) :
    okOpt (jsOr a b) := by
  intro v h
  cases a with
  | none => exact hb v h
  | some w =>
    simp only [jsOr] at h
    split at h
    · exact hb v h
    · cases h
      exact ha _ rfl

theorem foldl_addRol_nodup (ms : List MRes) :
    ∀ acc : List String, acc.Nodup → (ms.foldl addRolStep acc).Nodup := by
  induction ms with
  | nil => intro acc h; simpa using h
  | cons m ms ih =>
    intro acc h
    rw [List.foldl_cons]
    apply ih
    unfold addRolStep
    split
    · rename_i rol _
      by_cases hc : acc.contains rol
      · rw [if_pos hc]; exact h
      · rw [if_neg hc]
        refine List.Nodup.append h (List.nodup_singleton rol) ?_
        intro a ha hb
        rw [List.mem_singleton] at hb
        subst hb
        exact hc (List.elem_eq_true_of_mem ha)
    · exact h

theorem rolesFound_nodup (html : String) : (rolesFound html).Nodup := by
  rw [rolesFound]
  exact foldl_addRol_nodup (reAll multasRegex html) [] List.nodup_nil

theorem map_rol_rolEntry (roles : List String) :
    (roles.map rolEntry).map Multa.rol = roles := by
  rw [List.map_map]
  exact List.map_id'' (fun r => rfl) roles

theorem applyCantidadHint_multas (html : String) (r : MultasResult) :
    (applyCantidadHint html r).multas = r.multas := by
  rw [applyCantidadHint]
  cases cantidadHint html with
  | none => rfl
  | some n =>
    dsimp only
    split
    · rfl
    · rfl

/-! ## Claim theorems -/

/-- Markup with two table-row fine blocks that carry the same ROL. -/
def dupRolHtml : String :=
  "<tr>ROL/CAUSA: 123456 <b>a</b></tr><tr>ROL/CAUSA: 123456 <b>a</b></tr>"

/-- C1 counterexample: on markup whose detailed-block pass matches two rows
with the same ROL, `parseMultasFromHtml` returns two entries with the same
case identifier, so the extraction does not always deduplicate by `caseId`. -/
theorem c1_dup_rol_counterexample :
    (parseMultasFromHtml dupRolHtml "AB12").multas.map Multa.rol =
      ["123456", "123456"] ∧
    ¬ ((parseMultasFromHtml dupRolHtml "AB12").multas.map Multa.rol).Nodup := by
  constructor
  · rfl
  · decide

/-- C1 (amended): the rol-token scan deduplicates through a `Set`, so whenever
the detailed-block pass contributes no entry, the entries of
`parseMultasFromHtml` are unique by their `rol` case identifier; the
detailed-block pass itself does not deduplicate. -/
theorem c1_entries_nodup (html patente : String)
    (hd : multasDetalles html = []) :
    ((parseMultasFromHtml html patente).multas.map Multa.rol).Nodup := by
  rw [parseMultasFromHtml]
  split
  · simp [parseMultasInit]
  · rw [applyCantidadHint_multas]
    simp only [parseMultasPre, hd, List.length_nil, Nat.lt_irrefl, if_false]
    by_cases hr : 0 < (rolesFound html).length
    · simp only [if_pos hr]
      rw [map_rol_rolEntry]
      exact rolesFound_nodup html
    · simp [if_neg hr, parseMultasInit]

/-- C1 witness: three rol tokens, one repeated, and no detailed blocks — the
returned entries are unique. -/
theorem c1_entries_nodup_witness :
    ((parseMultasFromHtml "ROL/CAUSA: 111 ROL/CAUSA: 222 ROL/CAUSA: 111"
        "AB12").multas.map Multa.rol).Nodup :=
  c1_entries_nodup "ROL/CAUSA: 111 ROL/CAUSA: 222 ROL/CAUSA: 111" "AB12" (by rfl)

/-- Scenario B of the spec, literally: two distinct case-id tokens and the
summary text `3 multas encontradas`. -/
def scenarioBHtml : String := "ROL/CAUSA: 111 ROL/CAUSA: 222 y 3 multas encontradas"

/-- C2 counterexample: with the summary text written as `3 multas encontradas`
(the spec's Scenario B), the hint regexes do not match — the digits must
follow the phrase — so the count stays 2, not the claimed 3. -/
theorem c2_scenarioB_counterexample :
    (parseMultasFromHtml scenarioBHtml "AB12").cantidadMultas = 2 ∧
    (parseMultasFromHtml scenarioBHtml "AB12").multas.length = 2 ∧
    (parseMultasFromHtml scenarioBHtml "AB12").cantidadMultas ≠ 3 := by
  refine ⟨rfl, rfl, ?_⟩
  decide

/-- C2 (amended): when no no-fines indicator fires and the page carries an
explicit count hint (in the format the code recognises, digits after the
phrase, e.g. `multas encontradas: 3`) that exceeds the extracted count, the
hint is trusted for `cantidadMultas`, `tieneMultas` becomes `count > 0`, and
the entries are left exactly as extracted; in particular markup with two
distinct case-id tokens and the summary `multas encontradas: 3` yields count
3, 2 entries, `hasFines = true`. -/
theorem c2_count_hint :
    (∀ html patente n, hasNoMultas html = false → cantidadHint html = some n →
      (parseMultasPre html patente).cantidadMultas < n →
      (parseMultasFromHtml html patente).cantidadMultas = n ∧
      (parseMultasFromHtml html patente).tieneMultas = decide (0 < n) ∧
      (parseMultasFromHtml html patente).multas =
        (parseMultasPre html patente).multas) ∧
    ((parseMultasFromHtml "ROL/CAUSA: 111 ROL/CAUSA: 222 y multas encontradas: 3"
        "AB12").cantidadMultas = 3 ∧
     (parseMultasFromHtml "ROL/CAUSA: 111 ROL/CAUSA: 222 y multas encontradas: 3"
        "AB12").multas.length = 2 ∧
     (parseMultasFromHtml "ROL/CAUSA: 111 ROL/CAUSA: 222 y multas encontradas: 3"
        "AB12").tieneMultas = true) := by
  constructor
  · intro html patente n hn hh hlt
    rw [parseMultasFromHtml, if_neg (by simp [hn])]
    rw [applyCantidadHint, hh]
    dsimp only
    rw [if_pos hlt]
    exact ⟨rfl, rfl, rfl⟩
  · exact ⟨rfl, rfl, rfl⟩

/-- C2 witness: one rol token plus the hint `multas encontradas: 4` — the
reconciliation theorem applied at a concrete input. -/
theorem c2_count_hint_witness :
    (parseMultasFromHtml "ROL/CAUSA: 999 multas encontradas: 4" "X1").cantidadMultas
      = 4 :=
  (c2_count_hint.1 "ROL/CAUSA: 999 multas encontradas: 4" "X1" 4
    (by rfl) (by rfl) (by decide)).1

/-- C10: any no-fines indicator short-circuits `parseMultasFromHtml` — the
result reports no fines, count 0 and no entries, regardless of any ROL/CAUSA
tokens or count hints elsewhere in the markup. -/
theorem c10_no_multas_short_circuit (html patente : String)
    (h : hasNoMultas html = true) :
    (parseMultasFromHtml html patente).tieneMultas = false ∧
    (parseMultasFromHtml html patente).cantidadMultas = 0 ∧
    (parseMultasFromHtml html patente).multas = [] ∧
    parseMultasFromHtml html patente = parseMultasInit patente := by
  rw [parseMultasFromHtml, if_pos (by simp [h])]
  exact ⟨rfl, rfl, rfl, rfl⟩

/-- C10 witness: markup containing a no-fines indicator together with a rol
token and a positive count hint still yields the empty no-fines result. -/
theorem c10_no_multas_short_circuit_witness :
    (parseMultasFromHtml "no tiene multas ROL/CAUSA: 123456 multas encontradas: 5"
        "AB12").tieneMultas = false ∧
    (parseMultasFromHtml "no tiene multas ROL/CAUSA: 123456 multas encontradas: 5"
        "AB12").cantidadMultas = 0 ∧
    (parseMultasFromHtml "no tiene multas ROL/CAUSA: 123456 multas encontradas: 5"
        "AB12").multas = [] ∧
    parseMultasFromHtml "no tiene multas ROL/CAUSA: 123456 multas encontradas: 5"
        "AB12" = parseMultasInit "AB12" :=
  c10_no_multas_short_circuit
    "no tiene multas ROL/CAUSA: 123456 multas encontradas: 5" "AB12" (by rfl)

/-- C5: `parseResultadosHtml` reports not-found (success `false` with the
not-found error and no extracted group) exactly when a negative-result phrase
occurs and the token `multas` does not; a page with both a negative phrase and
the `multas` token proceeds to extraction (success stays `true`). -/
theorem c5_notfound_classifier (html patente : String) :
    ((parseResultadosHtml html patente).success = false ↔
      (hasErrorPattern html ∧ ¬ hasMultasToken html)) ∧
    (hasErrorPattern html = true → hasMultasToken html = false →
      parseResultadosHtml html patente =
        { success := false, patente := patente,
          error := some "Patente no encontrada o error en consulta" }) := by
  by_cases hc : (hasErrorPattern html ∧ ¬ hasMultasToken html : Prop)
  · constructor
    · rw [parseResultadosHtml, if_pos hc]
      exact iff_of_true rfl hc
    · intro _ _
      rw [parseResultadosHtml, if_pos hc]
  · constructor
    · rw [parseResultadosHtml, if_neg hc]
      dsimp only
      exact iff_of_false (by simp) hc
    · intro h1 h2
      exact absurd ⟨h1, by simp [h2]⟩ hc

/-- C5 witness: a bare negative-result page is classified not-found; adding
the `multas` token turns the classification back to usable. -/
theorem c5_notfound_classifier_witness :
    (parseResultadosHtml "sin resultados para esta patente" "AB12").success = false :=
  (c5_notfound_classifier "sin resultados para esta patente" "AB12").1.mpr
    (by constructor <;> decide)

/-- The `extractValue(...) || fallback` plate field keeps a non-placeholder
value when the fallback is non-placeholder. -/
theorem jsOr_getD_ok {a : Option String} {d : String} (ha : okOpt a)
    (hd : okStr d) : okStr ((jsOr a (some d)).getD d) := by
  cases a with
  | none => exact hd
  | some w =>
    simp only [jsOr]
    split
    · exact hd
    · exact ha w rfl

/-- C4 counterexample: `extractVehicleData` assigns `revisionTecnica`,
`permisoCirculacion` and `soap` unconditionally, so on markup with no data the
record carries present groups whose every field is absent — optional groups
are not "null or at least one non-placeholder field". -/
theorem c4_unconditional_groups_counterexample :
    (extractVehicleData "" "AB12").revisionTecnica =
      some { kilometraje := none, ultimoControl := none, fechaVencimiento := none } ∧
    (extractVehicleData "" "AB12").permisoCirculacion =
      some { anioPago := none, municipalidad := none } ∧
    (extractVehicleData "" "AB12").soap =
      some { compania := none, fechaInicio := none } :=
  ⟨rfl, rfl, rfl⟩

/-- C4 (amended): in `parseResultadosHtml` every optional group is either
absent or guarded so that it contains data, and no placeholder string
(`""`, `"-"`, `"N/A"`) appears in any field of the returned record (given a
non-placeholder plate); `extractVehicleData`, by contrast, always emits
`multas`, `revisionTecnica`, `permisoCirculacion` and `soap`, possibly with
every field absent. -/
theorem c4_resultados_invariant (html patente : String) (hp : okStr patente) :
    (∀ pr, (parseResultadosHtml html patente).propietario = some pr →
      (optTruthy pr.rut ∨ optTruthy pr.nombre) ∧ okOpt pr.rut ∧ okOpt pr.nombre) ∧
    (∀ vd, (parseResultadosHtml html patente).vehiculo = some vd →
      vehiculoHasData vd patente ∧ okStr vd.patente ∧ okOpt vd.tipo ∧
      okOpt vd.marca ∧ okOpt vd.modelo ∧ okOpt vd.color ∧ okOpt vd.numeroMotor ∧
      okOpt vd.numeroChasis ∧ okOpt vd.procedencia ∧ okOpt vd.fabricante ∧
      okOpt vd.tipoSello ∧ okOpt vd.combustible) ∧
    (∀ m, (parseResultadosHtml html patente).multas = some m → okStr m.mensaje) ∧
    (∀ rt, (parseResultadosHtml html patente).revisionTecnica = some rt →
      (rt.kilometraje.isSome ∨ rt.comuna.isSome ∨ rt.mes.isSome ∨
       rt.ultimoControl.isSome ∨ rt.fechaVencimiento.isSome) ∧
      okOpt rt.kilometraje ∧ okOpt rt.comuna ∧ okOpt rt.mes ∧
      okOpt rt.ultimoControl ∧ okOpt rt.fechaVencimiento) ∧
    (∀ pc, (parseResultadosHtml html patente).permisoCirculacion = some pc →
      (pc.anioPago.isSome ∨ pc.municipalidad.isSome ∨ pc.fechaPago.isSome) ∧
      okOpt pc.anioPago ∧ okOpt pc.municipalidad ∧ okOpt pc.fechaPago) ∧
    (∀ sp, (parseResultadosHtml html patente).soap = some sp →
      (sp.compania.isSome ∨ sp.fechaInicio.isSome) ∧
      okOpt sp.compania ∧ okOpt sp.fechaInicio) ∧
    (∀ tp, (parseResultadosHtml html patente).transportePublico = some tp →
      (optTruthy tp.es ∨ optTruthy tp.tipo) ∧ okOpt tp.es ∧ okOpt tp.tipo) ∧
    (∀ rv, (parseResultadosHtml html patente).restriccionVehicular = some rv →
      okStr rv.condicion) := by
  by_cases hc : (hasErrorPattern html ∧ ¬ hasMultasToken html : Prop)
  · rw [parseResultadosHtml, if_pos hc]
    refine ⟨?_, ?_, ?_, ?_, ?_, ?_, ?_, ?_⟩ <;>
      exact fun x hx => absurd hx (by simp)
  · rw [parseResultadosHtml, if_neg hc]
    dsimp only
    refine ⟨?_, ?_, ?_, ?_, ?_, ?_, ?_, ?_⟩
    · intro pr hpr
      split at hpr
      · rename_i hcond
        cases hpr
        exact ⟨hcond, extractValue000_okOpt html "RUT",
          extractValue000_okOpt html "Nombre"⟩
      · exact absurd hpr (by simp)
    · intro vd hvd
      split at hvd
      · rename_i hcond
        cases hvd
        refine ⟨hcond, jsOr_getD_ok (extractValue000_okOpt html "Patente") hp,
          extractValue000_okOpt html "Tipo", extractValue000_okOpt html "Marca",
          extractValue000_okOpt html "Modelo", extractValue000_okOpt html "Color",
          ?_, ?_, extractValue000_okOpt html "Procedencia",
          extractValue000_okOpt html "Fabricante", ?_,
          extractValue000_okOpt html "Combustible"⟩
        · exact jsOr_okOpt
            (jsOr_okOpt (extractValue000_okOpt html "N° de motor")
              (extractValue000_okOpt html "Numero Motor"))
            (extractValue000_okOpt html "Motor")
        · exact jsOr_okOpt
            (jsOr_okOpt (extractValue000_okOpt html "N° de chasis")
              (extractValue000_okOpt html "Numero Chasis"))
            (extractValue000_okOpt html "Chasis")
        · exact jsOr_okOpt (extractValue000_okOpt html "Tipo Sello")
            (extractValue000_okOpt html "Sello")
      · exact absurd hvd (by simp)
    · intro m hm
      cases hm
      exact jsOr_getD_ok (extractValue000_okOpt html "Multas") (by decide)
    · intro rt hrt
      split at hrt
      · rename_i hcond
        cases hrt
        exact ⟨hcond, extractValue000_okOpt html "Kilometraje",
          extractValue000_okOpt html "Comuna", extractValue000_okOpt html "Mes",
          jsOr_okOpt (extractValue000_okOpt html "Último Control")
            (extractValue000_okOpt html "Ultimo Control"),
          jsOr_okOpt (extractValue000_okOpt html "Fecha de Vencimiento")
            (extractValue000_okOpt html "Vencimiento")⟩
      · exact absurd hrt (by simp)
    · intro pc hpc
      split at hpc
      · rename_i hcond
        cases hpc
        exact ⟨hcond,
          jsOr_okOpt (extractValue000_okOpt html "Año Pago")
            (extractValue000_okOpt html "Permiso"),
          extractValue000_okOpt html "Municipalidad",
          jsOr_okOpt (extractValue000_okOpt html "Fecha de Pago")
            (extractValue000_okOpt html "Fecha Pago")⟩
      · exact absurd hpc (by simp)
    · intro sp hsp
      split at hsp
      · rename_i hcond
        cases hsp
        exact ⟨hcond,
          jsOr_okOpt
            (jsOr_okOpt (extractValue000_okOpt html "Compañía")
              (extractValue000_okOpt html "Compania"))
            (extractValue000_okOpt html "SOAP"),
          jsOr_okOpt (extractValue000_okOpt html "Fecha Inicio")
            (extractValue000_okOpt html "Inicio SOAP")⟩
      · exact absurd hsp (by simp)
    · intro tp htp
      split at htp
      · rename_i hcond
        cases htp
        exact ⟨hcond,
          jsOr_okOpt (extractValue000_okOpt html "Es Transporte Público")
            (extractValue000_okOpt html "Transporte"),
          extractValue000_okOpt html "Tipo Transporte"⟩
      · exact absurd htp (by simp)
    · intro rv hrv
      rcases hrr : jsOr (extractValue000 html "Restricción")
          (extractValue000 html "Restriccion Vehicular") with _ | r
      · rw [hrr] at hrv
        exact absurd hrv (by simp)
      · rw [hrr] at hrv
        dsimp only at hrv
        split at hrv
        · exact absurd hrv (by simp)
        · cases hrv
          exact jsOr_okOpt (extractValue000_okOpt html "Restricción")
            (extractValue000_okOpt html "Restriccion Vehicular") r hrr

/-- C4 witness: the invariant applied to the empty page — the always-present
fines group carries the non-placeholder fallback message. -/
theorem c4_resultados_invariant_witness : okStr "Sin información" :=
  (c4_resultados_invariant "" "AB12" (by decide)).2.2.1
    { tiene := false, cantidad := 0, mensaje := "Sin información" } (by rfl)

set_option maxRecDepth 16384 in
/-- C6 counterexample: `part_000`'s per-matcher filter has no 100-character
cap (and no entity stripping), so a 101-character capture is returned as a
field value. -/
theorem c6_no_cap_counterexample :
    extractValue000 ("Nombre: " ++ String.mk (List.replicate 101 'a')) "Nombre" =
      some (String.mk (List.replicate 101 'a')) ∧
    (String.mk (List.replicate 101 'a')).length = 101 :=
  ⟨rfl, rfl⟩

/-- C6 (amended): `cleanValue` (`part_002`) returns `none` exactly when the
entity-stripped, trimmed value is empty, `"-"`, `"N/A"` or longer than 100
characters, so no `part_002` field value is a placeholder or overlong; the
`part_000` filter rejects only empty, `"-"` and `"N/A"` (no entity stripping
or length cap). -/
theorem c6_cleanValue_spec :
    (∀ s, cleanValue s = none ↔
      (cleanedOf s = "" ∨ cleanedOf s = "-" ∨ cleanedOf s = "N/A" ∨
       100 < (cleanedOf s).length)) ∧
    (∀ html label v, extractValue002 html label = some v →
      okStr v ∧ v.length ≤ 100) ∧
    (∀ html label v, extractValue000 html label = some v → okStr v) := by
  refine ⟨?_, fun _ _ _ h => extractValue002_ok h, fun _ _ _ h => extractValue000_ok h⟩
  intro s
  unfold cleanValue
  by_cases hs : s = ""
  · rw [if_pos hs]
    subst hs
    exact iff_of_true rfl (Or.inl rfl)
  · rw [if_neg hs]
    by_cases hg : (cleanedOf s = "" ∨ cleanedOf s = "-" ∨ cleanedOf s = "N/A" ∨
        100 < (cleanedOf s).length)
    · rw [if_pos hg]
      exact iff_of_true rfl hg
    · rw [if_neg hg]
      exact iff_of_false (by simp) hg

/-- C6 witness: the specification of `cleanValue` applied to the placeholder
`"-"`. -/
theorem c6_cleanValue_spec_witness : cleanValue "-" = none :=
  (c6_cleanValue_spec.1 "-").mpr (Or.inr (Or.inl rfl))

/-- Follows the spec's words for integer normalization — "parses the first
run of digits; non-numeric input yields none rather than zero" — for
comparison with the code's `parseInt`-based normalization. -/
def specIntNormalize (s : String) : Option Int :=
  let ds := (s.toList.dropWhile (fun c => ! isDigitC c)).takeWhile isDigitC
  if ds = [] then none else some ((digitsToNat ds : Int))

/-- C7 counterexample: the code applies `parseInt`, which parses only a
leading digit run — on `"x2016"` it yields `NaN` (hence `none`), while the
claimed "first run of digits" normalization yields `2016`. -/
theorem c7_parseInt_counterexample :
    parseIntOrNull (some "x2016") = none ∧
    specIntNormalize "x2016" = some 2016 ∧
    evalVehiculoAnio [["Año", "x2016"]] = none :=
  ⟨rfl, rfl, rfl⟩

/-- C7 (amended): year normalization applies `parseInt` and collapses falsy
results, so it never returns zero, non-numeric input yields `none`, a year
cell `2016` yields the integer 2016, and a literal `0` also collapses to
`none`. -/
theorem c7_year_parseInt :
    (∀ s, parseIntOrNull s ≠ some 0) ∧
    parseIntOrNull (some "abc") = none ∧
    evalVehiculoAnio [["Año", "2016"]] = some 2016 ∧
    evalVehiculoAnio [["Año", "0"]] = none := by
  refine ⟨?_, rfl, rfl, rfl⟩
  intro s h
  unfold parseIntOrNull at h
  split at h
  · exact absurd h (by simp)
  · split at h
    · exact absurd h (by simp)
    · split at h
      · exact absurd h (by simp)
      · rename_i hn
        injection h with h'
        exact hn h'

/-- C7 witness: the no-zero property applied to the string `"0"`. -/
theorem c7_year_parseInt_witness : parseIntOrNull (some "0") ≠ some 0 :=
  c7_year_parseInt.1 (some "0")

/-- C3 counterexample: `consultarPropietario`'s success path returns the
plate text scraped from the first table cell, not the uppercased input; and
`consultarVehiculo` uppercases without trimming. -/
theorem c3_scraped_plate_counterexample :
    (consultarPropietario "abc123"
      (.page (some ["zz99", "AUTO", "SUZUKI", "ALTO", "1-9", "M123", "2016",
        "JUAN"]))).patente = some "zz99" ∧
    ("zz99" : String) ≠ "ABC123" ∧
    jsUpperS "abc123" = "ABC123" ∧
    (consultarVehiculo (α := Unit) " ab" (.thrown "boom")).patente = " AB" ∧
    (" AB" : String) ≠ "AB" := by
  refine ⟨rfl, by decide, rfl, rfl, by decide⟩

/-- C3 (amended): `consultarVehiculo` sets the record's plate to the
uppercased (untrimmed) input on every path; `consultarPropietario` does so on
every failure path, but on success takes the plate from the scraped row's
first cell. -/
theorem c3_plate_normalization :
    (∀ (α : Type) (patente : String) (o : PWOutcome α),
      (consultarVehiculo patente o).patente = jsUpperS patente) ∧
    (∀ patente msg, (consultarPropietario patente (.thrown msg)).patente =
      some (jsUpperS patente)) ∧
    (∀ patente row, volEvalRow row = none →
      (consultarPropietario patente (.page row)).patente =
        some (jsUpperS patente)) ∧
    (∀ patente row r, volEvalRow row = some r →
      (consultarPropietario patente (.page row)).patente = r.patente) := by
  refine ⟨?_, ?_, ?_, ?_⟩
  · intro α patente o
    cases o <;> rfl
  · intro patente msg
    rfl
  · intro patente row h
    unfold consultarPropietario
    dsimp only
    rw [h]
  · intro patente row r h
    unfold consultarPropietario
    dsimp only
    rw [h]

/-- C3 witness: the failure path of `consultarPropietario` applied to a
missing results row. -/
theorem c3_plate_normalization_witness :
    (consultarPropietario "xy12" (.page none)).patente = some (jsUpperS "xy12") :=
  c3_plate_normalization.2.2.1 "xy12" none rfl

/-- C8: both `extractValue` helpers try their patterns in the fixed source
order — the first pattern whose (filtered) attempt yields a value determines
the result, the result is `none` exactly when every attempt fails, and the
result is invariant under case changes of the label. -/
theorem c8_matcher_priority :
    (∀ (html label : String) (i : Nat) (v : String)
      (hi : i < (patterns002 label).length),
      (∀ j (hj : j < i),
        tryPat002 html ((patterns002 label).get ⟨j, Nat.lt_trans hj hi⟩) = none) →
      tryPat002 html ((patterns002 label).get ⟨i, hi⟩) = some v →
      extractValue002 html label = some v) ∧
    (∀ html label, extractValue002 html label = none ↔
      ∀ pat ∈ patterns002 label, tryPat002 html pat = none) ∧
    (∀ html label label', lowerL label.toList = lowerL label'.toList →
      extractValue002 html label = extractValue002 html label') ∧
    (∀ (html label : String) (i : Nat) (v : String)
      (hi : i < (patterns000 label).length),
      (∀ j (hj : j < i),
        tryPat000 html ((patterns000 label).get ⟨j, Nat.lt_trans hj hi⟩) = none) →
      tryPat000 html ((patterns000 label).get ⟨i, hi⟩) = some v →
      extractValue000 html label = some v) ∧
    (∀ html label, extractValue000 html label = none ↔
      ∀ pat ∈ patterns000 label, tryPat000 html pat = none) ∧
    (∀ html label label', lowerL label.toList = lowerL label'.toList →
      extractValue000 html label = extractValue000 html label') := by
  refine ⟨?_, ?_, ?_, ?_, ?_, ?_⟩
  · intro html label i v hi hnone hsome
    exact firstValid_of_first hi hnone hsome
  · intro html label
    exact firstValid_none_iff
  · intro html label label' h
    unfold extractValue002
    have hp : patterns002 label = patterns002 label' := by
      unfold patterns002
      rw [h]
    rw [hp]
  · intro html label i v hi hnone hsome
    exact firstValid_of_first hi hnone hsome
  · intro html label
    exact firstValid_none_iff
  · intro html label label' h
    unfold extractValue000
    have hp : patterns000 label = patterns000 label' := by
      unfold patterns000
      rw [h]
    rw [hp]

/-- C8 witness: on a table without bold markup, pattern 1 fails, pattern 2
produces the value, and the label is matched case-insensitively (`"rut"`
against `RUT`). -/
theorem c8_matcher_priority_witness :
    extractValue002 "<td>RUT </td><td>1-9</td>" "rut" = some "1-9" :=
  c8_matcher_priority.1 "<td>RUT </td><td>1-9</td>" "rut" 1 "1-9" (by decide)
    (fun j hj => by
      have h0 : j = 0 := Nat.lt_one_iff.mp hj
      subst h0
      rfl)
    (by rfl)

/-- C9 counterexample: the 400 response for a missing plate has no `success`
field at all (its body is only the error message), rather than
`success: false`. -/
theorem c9_no_success_field_counterexample :
    (handleRequest "/consultar" "GET" none none (fun _ => Except.ok ())).1.status
      = 400 ∧
    (handleRequest "/consultar" "GET" none none (fun _ => Except.ok ())).1.success
      = none ∧
    (handleRequest "/consultar" "GET" none none (fun _ => Except.ok ())).1.success
      ≠ some false ∧
    (handleRequest "/consultar" "GET" none none (fun _ => Except.ok ())).2 = [] := by
  refine ⟨rfl, rfl, by decide, rfl⟩

/-- C9 (amended): a missing or empty plate on any scraping endpoint is
rejected immediately with HTTP 400 and the error message, no adapter call is
made, and the 400 body carries no `success` field; the worker `fetch`
handlers guard identically. -/
theorem c9_empty_plate_rejected :
    (∀ (path method : String) (tipo : Option String)
      (runCall : ApiCall → Except String Unit) (patente : Option String),
      (path = "/propietario" ∨ path = "/multas" ∨ path = "/consultar") →
      (method = "GET" ∨ method = "POST") →
      (patente = none ∨ patente = some "") →
      handleRequest path method patente tipo runCall =
        ({ status := 400, error := some "Patente es requerida" }, [])) ∧
    (∀ patente : Option String, (patente = none ∨ patente = some "") →
      workerPlateGuard patente =
        some { status := 400,
               error := some "Parámetro \"patente\" es requerido" }) := by
  constructor
  · rintro path method tipo runCall patente (rfl | rfl | rfl) (rfl | rfl)
      (rfl | rfl) <;> rfl
  · rintro patente (rfl | rfl) <;> rfl

/-- C9 witness: the rejection applied to an empty plate on `/multas`. -/
theorem c9_empty_plate_rejected_witness :
    handleRequest "/multas" "POST" (some "") none (fun _ => Except.ok ()) =
      ({ status := 400, error := some "Patente es requerida" }, []) :=
  c9_empty_plate_rejected.1 "/multas" "POST" none (fun _ => Except.ok ())
    (some "") (Or.inr (Or.inl rfl)) (Or.inr rfl) (Or.inr rfl)
